import Mathlib

/-!
Shallow embedding of the progress/completion cascade engine, the offline
session manager and the sync outbox of the `our-africa-frontend-min`
repository (Rust/Tauri commands over SQLite, files
`src-tauri/src/commands/progress.rs`, `offline.rs`, `sync.rs`).

Modelling conventions:
* SQLite tables are Lean lists of row structures; the database is one `DB`
  record.  SQL `UPDATE ... WHERE` is a `List.map` touching matching rows,
  `DELETE` is a `List.filter`, `INSERT` is an append.
* ISO-8601 / `datetime('now')` timestamps are naturals (seconds).  Each Tauri
  command takes the current instant `now : Nat`; the source draws
  `chrono::Utc::now()` and SQL `datetime('now')` inside one command, which we
  identify.  `datetime('now', '-N days')` is `now - N*86400`, written in
  subtraction-free form where it is compared.
* A command returning `Result<_, String>` whose failures matter to a claim
  becomes `Option` (`none` = `Err`); commands whose SQL cannot fail on the
  modelled paths are total.
* `content_progress` carries the SQLite unique constraint on
  `(enrollment_id, content_id)` (the `ON CONFLICT` target in the source), so
  its upsert maps the matching row when one exists and appends otherwise.
* The REAL column `content_completion_percentage` and the Rust
  `((completed as f64 / total as f64) * 100.0).round()` are modelled by the
  integer rounding `(100*completed + total/2) / total`, which agrees with the
  f64 computation on the magnitudes the store holds.
-/

structure Enrollment where
  id : String
  studentId : String
  courseId : String
  createdAt : Nat
  updatedAt : Nat
deriving Repr, DecidableEq

structure CourseModule where
  id : String
  courseId : String
  hasQuiz : Bool
deriving Repr, DecidableEq

structure ContentBlock where
  id : String
  moduleId : String
  orderIndex : Nat
deriving Repr, DecidableEq

structure Quiz where
  id : String
  moduleId : String
deriving Repr, DecidableEq

structure QuizAttempt where
  id : String
  studentId : String
  quizId : String
  attemptNumber : Nat
  status : String
  startedAt : Option Nat
  completedAt : Option Nat
  score : Option Int
  passed : Option Bool
  timeRemainingSeconds : Option Int
  createdAt : Option Nat
  updatedAt : Option Nat
  lastSyncedAt : Option Nat
deriving Repr, DecidableEq

structure ContentProgress where
  id : String
  enrollmentId : String
  contentId : String
  isCompleted : Bool
  viewedAt : Option Nat
  completedAt : Option Nat
  createdAt : Option Nat
  updatedAt : Option Nat
  lastSyncedAt : Option Nat
deriving Repr, DecidableEq

structure ModuleProgress where
  id : String
  enrollmentId : String
  moduleId : String
  status : String
  startedAt : Option Nat
  completedAt : Option Nat
  autoCompleted : Bool
  contentCompletionPercentage : Nat
  completedContentCount : Nat
  totalContentCount : Nat
  createdAt : Option Nat
  updatedAt : Option Nat
  lastSyncedAt : Option Nat
deriving Repr, DecidableEq

structure OfflineSession where
  id : String
  studentId : String
  courseId : String
  downloadedAt : Option Nat
  expiresAt : Nat
  packageVersion : String
  presignedUrlExpiryDays : Int
  lastSyncedAt : Option Nat
  syncCount : Nat
  isDeleted : Bool
  createdAt : Option Nat
  updatedAt : Option Nat
deriving Repr, DecidableEq

structure SyncQueueItem where
  id : Nat
  operationType : String
  tableName : String
  recordId : String
  data : String
  createdAt : Nat
  retryCount : Nat
  lastRetryAt : Option Nat
  errorMessage : Option String
deriving Repr, DecidableEq

structure DB where
  users : List String
  enrollments : List Enrollment
  modules : List CourseModule
  contentBlocks : List ContentBlock
  quizzes : List Quiz
  quizAttempts : List QuizAttempt
  contentProgress : List ContentProgress
  moduleProgress : List ModuleProgress
  offlineSessions : List OfflineSession
  syncQueue : List SyncQueueItem
  nextSyncId : Nat
deriving Repr, DecidableEq

/-- Unique key of a `content_progress` row (the `ON CONFLICT` target). -/
def cpKey (e c : String) (r : ContentProgress) : Bool :=
  r.enrollmentId == e && r.contentId == c

/-- `INSERT ... ON CONFLICT(enrollment_id, content_id) DO UPDATE`: update the
matching row when one exists, append the fresh row otherwise. -/
def upsertContentProgress (l : List ContentProgress) (e c : String)
    (f : ContentProgress → ContentProgress) (fresh : ContentProgress) :
    List ContentProgress :=
  if l.any (cpKey e c) then
    l.map (fun r => if cpKey e c r then f r else r)
  else l ++ [fresh]

/-- Fold step realising `ORDER BY created_at DESC LIMIT 1` (keeps the first of
equally recent rows). -/
def pickLatest : Option Enrollment → Enrollment → Option Enrollment
  | none, e => some e
  | some a, e => if a.createdAt < e.createdAt then some e else some a

/-- `SELECT e.id FROM enrollments e JOIN users u ON e.student_id = u.id
WHERE e.course_id = ? ORDER BY e.created_at DESC LIMIT 1`. -/
def latestEnrollment (db : DB) (courseId : String) : Option Enrollment :=
  (db.enrollments.filter
      (fun e => e.courseId == courseId && db.users.any (fun u => u == e.studentId))).foldl
    pickLatest none

/-- STEP 1-3 of `mark_content_as_viewed` / `mark_content_as_completed`:
content → module, module → course, course → latest enrollment.  Returns
`(module_id, enrollment_id)`; `none` models the `Err("... not found")` paths. -/
def resolveCtx (db : DB) (contentId : String) : Option (String × String) :=
  match db.contentBlocks.find? (fun b => b.id == contentId) with
  | none => none
  | some cb =>
    match db.modules.find? (fun m => m.id == cb.moduleId) with
    | none => none
    | some md =>
      match latestEnrollment db md.courseId with
      | none => none
      | some en => some (cb.moduleId, en.id)

/-- `format!("cp_{}_{}", enrollment_id, content_id)`. -/
def progressId (e c : String) : String := "cp_" ++ e ++ "_" ++ c

/-- Integer model of `((completed as f64 / total as f64) * 100.0).round()`
(`0.0` when `total = 0`). -/
def roundPercent (completed total : Nat) : Nat :=
  if total > 0 then (100 * completed + total / 2) / total else 0

/-- `SELECT COUNT(*) FROM content_blocks WHERE module_id = ?`. -/
def totalContentCount (blocks : List ContentBlock) (m : String) : Nat :=
  (blocks.filter (fun cb => cb.moduleId == m)).length

/-- `SELECT COUNT(*) FROM content_progress cp JOIN content_blocks cb ON
cp.content_id = cb.id WHERE cp.enrollment_id = ? AND cb.module_id = ? AND
cp.is_completed = 1`. -/
def completedContentCount (blocks : List ContentBlock)
    (cps : List ContentProgress) (e m : String) : Nat :=
  (cps.filter (fun cp => cp.enrollmentId == e && cp.isCompleted &&
      blocks.any (fun cb => cb.id == cp.contentId && cb.moduleId == m))).length

/-- `check_module_auto_completion` (progress.rs:703-764): all content of the
module completed (false when the module has no content blocks), then no quiz,
or some completed passing attempt by the enrolled student. -/
def checkModuleAutoCompletion (db : DB) (enrollmentId moduleId : String) : Bool :=
  let blocks := db.contentBlocks.filter (fun cb => cb.moduleId == moduleId)
  let allContentCompleted := !blocks.isEmpty &&
    blocks.all (fun cb => db.contentProgress.any
      (fun cp => cp.enrollmentId == enrollmentId && cp.contentId == cb.id && cp.isCompleted))
  if !allContentCompleted then false
  else
    let hasQuiz := ((db.modules.find? (fun md => md.id == moduleId)).map
      (fun md => md.hasQuiz)).getD false
    if !hasQuiz then true
    else
      db.quizAttempts.any (fun qa =>
        db.quizzes.any (fun q => qa.quizId == q.id && q.moduleId == moduleId) &&
        db.users.any (fun u => qa.studentId == u) &&
        db.enrollments.any (fun en => qa.studentId == en.studentId && en.id == enrollmentId) &&
        qa.status == "completed" && qa.passed == some true)

/-- STEP 5 of `mark_content_as_completed`: upsert of the content row with
`is_completed = 1`, `completed_at = now`. -/
def mccW1 (now : Nat) (e c : String) (db : DB) : DB :=
  let newCps :=
    upsertContentProgress db.contentProgress e c
      (fun r => { r with isCompleted := true, completedAt := some now,
                         updatedAt := some now, lastSyncedAt := some now })
      { id := progressId e c, enrollmentId := e, contentId := c,
        isCompleted := true, viewedAt := none, completedAt := some now,
        createdAt := some now, updatedAt := some now, lastSyncedAt := some now }
  { db with contentProgress := newCps }

/-- STEP 6-9 of `mark_content_as_completed`: recompute the aggregate counts and
write them into the `module_progress` row(s) of `(enrollment, module)`. -/
def mccW2 (now : Nat) (e m : String) (db : DB) : DB :=
  let total := totalContentCount db.contentBlocks m
  let completed := completedContentCount db.contentBlocks db.contentProgress e m
  let pct := roundPercent completed total
  { db with moduleProgress := db.moduleProgress.map (fun mp =>
      if mp.enrollmentId == e && mp.moduleId == m then
        { mp with contentCompletionPercentage := pct,
                  completedContentCount := completed,
                  totalContentCount := total,
                  updatedAt := some now, lastSyncedAt := some now }
      else mp) }

/-- STEP 10 of `mark_content_as_completed`: auto-complete the module when the
predicate holds. -/
def mccW3 (now : Nat) (e m : String) (db : DB) : DB :=
  if checkModuleAutoCompletion db e m then
    { db with moduleProgress := db.moduleProgress.map (fun mp =>
        if mp.enrollmentId == e && mp.moduleId == m then
          { mp with status := "completed", completedAt := some now,
                    autoCompleted := true,
                    updatedAt := some now, lastSyncedAt := some now }
        else mp) }
  else db

/-- `UPDATE enrollments SET updated_at = ?1 WHERE id = ?2`. -/
def bumpEnrollment (now : Nat) (e : String) (db : DB) : DB :=
  { db with enrollments := db.enrollments.map (fun en =>
      if en.id == e then { en with updatedAt := now } else en) }

/-- `mark_content_as_completed` (progress.rs:471-700).  The verification read
of STEP 5.5 is the `if ... any` guard. -/
def markContentAsCompleted (now : Nat) (contentId : String) (db : DB) : Option DB :=
  (resolveCtx db contentId).bind fun me =>
    let db1 := mccW1 now me.2 contentId db
    if db1.contentProgress.any (cpKey me.2 contentId) then
      some (bumpEnrollment now me.2 (mccW3 now me.2 me.1 (mccW2 now me.2 me.1 db1)))
    else none

/-- The four writes of the cascade, in source order: content upsert, aggregate
update, optional auto-completion, enrollment bump. -/
def mccSteps (now : Nat) (contentId mid eid : String) : List (DB → DB) :=
  [mccW1 now eid contentId, mccW2 now eid mid, mccW3 now eid mid, bumpEnrollment now eid]

/-- Crash semantics of the cascade: the source wraps no transaction around the
four `conn.execute` statements, each of which autocommits, so a failure before
write `k+1` leaves exactly the first `k` writes durable. -/
def markContentAsCompletedUpTo (k : Nat) (now : Nat) (contentId : String)
    (db : DB) : Option DB :=
  (resolveCtx db contentId).map fun me =>
    ((mccSteps now contentId me.1 me.2).take k).foldl (fun d w => w d) db

/-- `mark_content_as_viewed` (progress.rs:330-468): preserves an existing
`is_completed`/`completed_at`, refreshes `viewed_at`/`updated_at`, then bumps
the enrollment timestamp. -/
def markContentAsViewed (now : Nat) (contentId : String) (db : DB) : Option DB :=
  (resolveCtx db contentId).bind fun me =>
    let existing := db.contentProgress.find? (cpKey me.2 contentId)
    let isC := (existing.map (fun r => r.isCompleted)).getD false
    let cAt := (existing.map (fun r => r.completedAt)).getD none
    let touch := fun (r : ContentProgress) =>
      { r with viewedAt := some now, updatedAt := some now, lastSyncedAt := some now }
    let newCps :=
      match cAt with
      | some v =>
        upsertContentProgress db.contentProgress me.2 contentId touch
          { id := progressId me.2 contentId, enrollmentId := me.2,
            contentId := contentId, isCompleted := isC, viewedAt := some now,
            completedAt := some v, createdAt := some now, updatedAt := some now,
            lastSyncedAt := some now }
      | none =>
        upsertContentProgress db.contentProgress me.2 contentId touch
          { id := progressId me.2 contentId, enrollmentId := me.2,
            contentId := contentId, isCompleted := isC, viewedAt := some now,
            completedAt := none, createdAt := some now, updatedAt := some now,
            lastSyncedAt := some now }
    let db1 := { db with contentProgress := newCps }
    if db1.contentProgress.any (cpKey me.2 contentId) then
      some (bumpEnrollment now me.2 db1)
    else none

/-- `update_quiz_attempt_status` (progress.rs:868-900). -/
def updateQuizAttemptStatus (now : Nat) (attemptId status : String)
    (score : Option Int) (passed : Option Bool) (db : DB) : DB :=
  if status == "completed" then
    { db with quizAttempts := db.quizAttempts.map (fun qa =>
        if qa.id == attemptId then
          { qa with status := status, completedAt := some now, score := score,
                    passed := passed, updatedAt := some now, lastSyncedAt := some now }
        else qa) }
  else
    { db with quizAttempts := db.quizAttempts.map (fun qa =>
        if qa.id == attemptId then
          { qa with status := status, updatedAt := some now, lastSyncedAt := some now }
        else qa) }

/-- `update_module_status` (progress.rs:103-142). -/
def updateModuleStatus (now : Nat) (moduleProgressId status : String) (db : DB) : DB :=
  if status == "in_progress" then
    { db with moduleProgress := db.moduleProgress.map (fun mp =>
        if mp.id == moduleProgressId then
          { mp with status := status, startedAt := some now,
                    updatedAt := some now, lastSyncedAt := some now }
        else mp) }
  else if status == "completed" then
    { db with moduleProgress := db.moduleProgress.map (fun mp =>
        if mp.id == moduleProgressId then
          { mp with status := status, completedAt := some now,
                    updatedAt := some now, lastSyncedAt := some now }
        else mp) }
  else
    { db with moduleProgress := db.moduleProgress.map (fun mp =>
        if mp.id == moduleProgressId then
          { mp with status := status, updatedAt := some now, lastSyncedAt := some now }
        else mp) }

/-- The fields of `save_module_progress`'s JSON payload after extraction
(progress.rs:8-56); JSON decoding itself is out of scope. -/
structure ModuleProgressInput where
  id : String
  enrollmentId : String
  moduleId : String
  status : String
  startedAt : Option Nat
  completedAt : Option Nat
  autoCompleted : Bool
  contentCompletionPercentage : Nat
  completedContentCount : Nat
  totalContentCount : Nat
  createdAt : Option Nat
  updatedAt : Option Nat
deriving Repr, DecidableEq

/-- `save_module_progress` (progress.rs:8-56): `INSERT OR REPLACE` keyed on the
primary key `id`, then the enrollment timestamp bump. -/
def saveModuleProgress (now : Nat) (inp : ModuleProgressInput) (db : DB) : DB :=
  let row : ModuleProgress :=
    { id := inp.id, enrollmentId := inp.enrollmentId, moduleId := inp.moduleId,
      status := inp.status, startedAt := inp.startedAt, completedAt := inp.completedAt,
      autoCompleted := inp.autoCompleted,
      contentCompletionPercentage := inp.contentCompletionPercentage,
      completedContentCount := inp.completedContentCount,
      totalContentCount := inp.totalContentCount,
      createdAt := inp.createdAt, updatedAt := inp.updatedAt,
      lastSyncedAt := some now }
  let db1 := { db with moduleProgress :=
      (db.moduleProgress.filter (fun mp => !(mp.id == inp.id))) ++ [row] }
  bumpEnrollment now inp.enrollmentId db1

/-- The JSON a session read returns: stored columns plus the derived
`is_expired` / `is_valid` fields. -/
structure SessionView where
  id : String
  studentId : String
  courseId : String
  downloadedAt : Option Nat
  expiresAt : Nat
  packageVersion : String
  lastSyncedAt : Option Nat
  syncCount : Nat
  isDeleted : Bool
  isExpired : Bool
  isValid : Bool
deriving Repr, DecidableEq

/-- One row of the session JSON: `is_expired = CASE WHEN datetime(expires_at)
< datetime('now') THEN 1 ELSE 0 END`, `is_valid = CASE WHEN is_deleted = 1
THEN 0 WHEN datetime(expires_at) < datetime('now') THEN 0 ELSE 1 END`. -/
def sessionView (now : Nat) (s : OfflineSession) : SessionView :=
  { id := s.id, studentId := s.studentId, courseId := s.courseId,
    downloadedAt := s.downloadedAt, expiresAt := s.expiresAt,
    packageVersion := s.packageVersion, lastSyncedAt := s.lastSyncedAt,
    syncCount := s.syncCount, isDeleted := s.isDeleted,
    isExpired := decide (s.expiresAt < now),
    isValid := if s.isDeleted then false
               else if s.expiresAt < now then false
               else true }

/-- `get_offline_session_by_id` (offline.rs:43-77). -/
def getOfflineSessionById (now : Nat) (sessionId : String) (db : DB) :
    Option SessionView :=
  (db.offlineSessions.find? (fun s => s.id == sessionId)).map (sessionView now)

/-- Insertion respecting `le`; the sorter behind `ORDER BY`. -/
def insertByLe (le : α → α → Bool) (x : α) : List α → List α
  | [] => [x]
  | y :: ys => if le y x then y :: insertByLe le x ys else x :: y :: ys

def sortByLe (le : α → α → Bool) : List α → List α
  | [] => []
  | x :: xs => insertByLe le x (sortByLe le xs)

/-- `get_student_offline_sessions` (offline.rs:79-217); every query variant
keeps `is_deleted = 0`, the active variants add `expires_at >= now`, and all
order by `downloaded_at DESC`. -/
def getStudentOfflineSessions (now : Nat) (studentId : String)
    (courseId : Option String) (activeOnly : Bool) (db : DB) : List SessionView :=
  let base := db.offlineSessions.filter (fun s =>
    s.studentId == studentId &&
    (match courseId with
     | some c => s.courseId == c
     | none => true) &&
    !s.isDeleted &&
    (if activeOnly then decide (now ≤ s.expiresAt) else true))
  (sortByLe (fun a b => decide (b.downloadedAt.getD 0 ≤ a.downloadedAt.getD 0)) base).map
    (sessionView now)

/-- `delete_offline_session` (offline.rs:240-255): soft delete. -/
def deleteOfflineSession (now : Nat) (sessionId : String) (db : DB) : DB :=
  { db with offlineSessions := db.offlineSessions.map (fun s =>
      if s.id == sessionId then { s with isDeleted := true, updatedAt := some now }
      else s) }

/-- `hard_delete_offline_session` (offline.rs:257-270): row removal. -/
def hardDeleteOfflineSession (sessionId : String) (db : DB) : DB :=
  { db with offlineSessions := db.offlineSessions.filter (fun s => !(s.id == sessionId)) }

/-- `delete_expired_offline_sessions` (offline.rs:304-321): `UPDATE
offline_sessions SET is_deleted = 1, updated_at = now WHERE datetime(expires_at)
< datetime('now', '-days_old days') AND is_deleted = 0`; returns the changed-row
count.  `expires_at < now - days_old*86400` is written additively. -/
def deleteExpiredOfflineSessions (now : Nat) (daysOld : Nat) (db : DB) : DB × Nat :=
  let hit := fun (s : OfflineSession) =>
    decide (s.expiresAt + daysOld * 86400 < now) && !s.isDeleted
  ({ db with offlineSessions := db.offlineSessions.map (fun s =>
      if hit s then { s with isDeleted := true, updatedAt := some now } else s) },
   (db.offlineSessions.filter hit).length)

/-- `add_to_sync_queue` (sync.rs:8-27): append with `created_at = now`,
`retry_count = 0`; `id` is the autoincrement rowid. -/
def addToSyncQueue (now : Nat) (operationType tableName recordId data : String)
    (db : DB) : DB :=
  { db with
    syncQueue := db.syncQueue ++
      [{ id := db.nextSyncId, operationType := operationType,
         tableName := tableName, recordId := recordId, data := data,
         createdAt := now, retryCount := 0, lastRetryAt := none,
         errorMessage := none }],
    nextSyncId := db.nextSyncId + 1 }

/-- `get_sync_queue` (sync.rs:29-62): `ORDER BY created_at ASC LIMIT ?`,
`limit` defaulting to 100; a pure read. -/
def getSyncQueue (limit : Option Nat) (db : DB) : List SyncQueueItem :=
  (sortByLe (fun a b => decide (a.createdAt ≤ b.createdAt)) db.syncQueue).take
    (limit.getD 100)

/-- `remove_from_sync_queue` (sync.rs:77-85): `DELETE FROM sync_queue WHERE id = ?`. -/
def removeFromSyncQueue (syncId : Nat) (db : DB) : DB :=
  { db with syncQueue := db.syncQueue.filter (fun it => !(it.id == syncId)) }

/-! ## Generic list helpers -/

theorem anyCongr {α : Type} {f g : α → Bool} :
    ∀ l : List α, (∀ x ∈ l, f x = g x) → l.any f = l.any g := by
  intro l h
  induction l with
  | nil => rfl
  | cons a t ih =>
    simp only [List.any_cons, h a (by simp)]
    rw [ih (fun x hx => h x (by simp [hx]))]

theorem allCongr {α : Type} {f g : α → Bool} :
    ∀ l : List α, (∀ x ∈ l, f x = g x) → l.all f = l.all g := by
  intro l h
  induction l with
  | nil => rfl
  | cons a t ih =>
    simp only [List.all_cons, h a (by simp)]
    rw [ih (fun x hx => h x (by simp [hx]))]

theorem find?_map_of_pres {α : Type} {g : α → α} {p : α → Bool}
    (hp : ∀ x, p (g x) = p x) :
    ∀ l : List α, (l.map g).find? p = (l.find? p).map g := by
  intro l
  induction l with
  | nil => rfl
  | cons a t ih =>
    by_cases h : p a
    · simp [List.find?_cons_of_pos, h, hp a]
    · have h0 : p a = false := Bool.of_not_eq_true h
      have h' : p (g a) = false := by rw [hp a]; exact h0
      simp [List.find?, h0, h', ih]

theorem any_of_find?_eq_some {α : Type} {p : α → Bool} {l : List α} {a : α}
    (h : l.find? p = some a) : l.any p = true := by
  have : (l.find? p).isSome = true := by rw [h]; rfl
  rcases List.find?_isSome.mp this with ⟨x, hx, hpx⟩
  exact List.any_eq_true.mpr ⟨x, hx, hpx⟩

/-! ## Concrete fixtures used by counterexamples and witnesses -/

def emptyDB : DB :=
  { users := [], enrollments := [], modules := [], contentBlocks := [],
    quizzes := [], quizAttempts := [], contentProgress := [],
    moduleProgress := [], offlineSessions := [], syncQueue := [], nextSyncId := 0 }

def enr0 : Enrollment :=
  { id := "e", studentId := "u", courseId := "c", createdAt := 0, updatedAt := 0 }

def mp0 : ModuleProgress :=
  { id := "mp", enrollmentId := "e", moduleId := "m", status := "in_progress",
    startedAt := some 0, completedAt := none, autoCompleted := false,
    contentCompletionPercentage := 0, completedContentCount := 0,
    totalContentCount := 2, createdAt := some 0, updatedAt := some 0,
    lastSyncedAt := none }

/-- Enrolled student, one module without quiz holding two content blocks. -/
def dbCascade : DB :=
  { emptyDB with
    users := ["u"],
    enrollments := [enr0],
    modules := [{ id := "m", courseId := "c", hasQuiz := false }],
    contentBlocks := [{ id := "b1", moduleId := "m", orderIndex := 0 },
                      { id := "b2", moduleId := "m", orderIndex := 1 }],
    moduleProgress := [mp0] }

/-- Like `dbCascade` but the module has a single content block. -/
def dbOneBlock : DB :=
  { dbCascade with
    contentBlocks := [{ id := "b1", moduleId := "m", orderIndex := 0 }],
    moduleProgress := [{ mp0 with totalContentCount := 1 }] }

/-- `dbCascade` with block `b1` already completed at time 3. -/
def dbViewed : DB :=
  { dbCascade with
    contentProgress := [{ id := "cp_e_b1", enrollmentId := "e", contentId := "b1",
                          isCompleted := true, viewedAt := some 2,
                          completedAt := some 3, createdAt := some 2,
                          updatedAt := some 3, lastSyncedAt := some 3 }] }

/-- Module with a quiz: all content done, quiz attempt still in progress. -/
def dbQuiz : DB :=
  { emptyDB with
    users := ["u"],
    enrollments := [enr0],
    modules := [{ id := "m", courseId := "c", hasQuiz := true }],
    contentBlocks := [{ id := "b1", moduleId := "m", orderIndex := 0 }],
    quizzes := [{ id := "q", moduleId := "m" }],
    quizAttempts := [{ id := "a1", studentId := "u", quizId := "q",
                       attemptNumber := 1, status := "in_progress",
                       startedAt := some 0, completedAt := none, score := none,
                       passed := none, timeRemainingSeconds := none,
                       createdAt := some 0, updatedAt := some 0,
                       lastSyncedAt := none }],
    contentProgress := [{ id := "cp_e_b1", enrollmentId := "e", contentId := "b1",
                          isCompleted := true, viewedAt := some 1,
                          completedAt := some 1, createdAt := some 1,
                          updatedAt := some 1, lastSyncedAt := some 1 }],
    moduleProgress := [{ mp0 with totalContentCount := 1,
                                  completedContentCount := 1,
                                  contentCompletionPercentage := 100 }] }

/-- A module-progress row already completed. -/
def dbDone : DB :=
  { emptyDB with
    moduleProgress := [{ mp0 with status := "completed", completedAt := some 1 }] }

/-- A module with an enrollment but zero content blocks. -/
def dbEmptyMod : DB :=
  { emptyDB with
    users := ["u"],
    enrollments := [enr0],
    modules := [{ id := "m", courseId := "c", hasQuiz := false }] }

def sess0 : OfflineSession :=
  { id := "s1", studentId := "u", courseId := "c", downloadedAt := some 0,
    expiresAt := 100, packageVersion := "v1", presignedUrlExpiryDays := 7,
    lastSyncedAt := none, syncCount := 0, isDeleted := false,
    createdAt := some 0, updatedAt := some 0 }

/-- One expired (but not soft-deleted) offline session. -/
def dbPurge : DB := { emptyDB with offlineSessions := [sess0] }

/-- One live offline session expiring at 10. -/
def dbSession : DB :=
  { emptyDB with offlineSessions := [{ sess0 with expiresAt := 10 }] }

/-- Modelled from the spec wording, for the refinement comparison of C3:
"every content item of the module has a completed ContentProgress row for that
enrollment AND (the module has no quiz OR some QuizAttempt for that module's
quiz by the enrolled student has status=completed and passed=true)". -/
def specModuleAutoComplete (db : DB) (e m : String) : Prop :=
  (∀ cb ∈ db.contentBlocks.filter (fun cb => cb.moduleId == m),
    ∃ cp ∈ db.contentProgress,
      cp.enrollmentId = e ∧ cp.contentId = cb.id ∧ cp.isCompleted = true) ∧
  (((db.modules.find? (fun md => md.id == m)).map (fun md => md.hasQuiz)).getD false
      = false ∨
   ∃ qa ∈ db.quizAttempts,
     (∃ q ∈ db.quizzes, qa.quizId = q.id ∧ q.moduleId = m) ∧
     qa.studentId ∈ db.users ∧
     (∃ en ∈ db.enrollments, qa.studentId = en.studentId ∧ en.id = e) ∧
     qa.status = "completed" ∧ qa.passed = some true)

/-! ## Claim-specific helper lemmas -/

theorem forall2_map_rel (R : ModuleProgress → ModuleProgress → Prop)
    (l : List ModuleProgress) (g : ModuleProgress → ModuleProgress)
    (hg : ∀ mp, R mp (g mp)) :
    List.Forall₂ R l (l.map g) :=
  List.forall₂_map_right_iff.mpr (List.forall₂_same.mpr (fun x _ => hg x))

theorem forall2_cp_take_append (l : List ContentProgress) (x : ContentProgress) :
    List.Forall₂ (fun r r' => r'.isCompleted = r.isCompleted ∧ r'.completedAt = r.completedAt)
      l ((l ++ [x]).take l.length) := by
  have ht : (l ++ [x]).take l.length = l := by simp [List.take_append]
  rw [ht]
  exact List.forall₂_same.mpr (fun y _ => ⟨rfl, rfl⟩)

theorem forall2_cp_take_map (l : List ContentProgress) (g : ContentProgress → ContentProgress)
    (hg : ∀ r, (g r).isCompleted = r.isCompleted ∧ (g r).completedAt = r.completedAt) :
    List.Forall₂ (fun r r' => r'.isCompleted = r.isCompleted ∧ r'.completedAt = r.completedAt)
      l ((l.map g).take l.length) := by
  rw [← List.length_map l g, List.take_length]
  exact List.forall₂_map_right_iff.mpr (List.forall₂_same.mpr fun y _ => hg y)

/-! ## Claims -/

/-- C1 (code bug): the cascade of `mark_content_as_completed` runs its four
writes as independent autocommitted statements with no enclosing transaction.
Failing right after the first write (the content-progress upsert) leaves an
observable state that is neither the initial state (the content row is now
completed) nor the all-writes state (the module aggregates are stale: count 0,
percentage 0 instead of 1, 50) — refuting all-or-nothing behaviour. -/
theorem C1_cascade_partial_write :
    (markContentAsCompletedUpTo 1 5 "b1" dbCascade).map
        (fun d => d.contentProgress.map (fun r => (r.contentId, r.isCompleted))) =
      some [("b1", true)] ∧
    (markContentAsCompletedUpTo 1 5 "b1" dbCascade).map (fun d => d.moduleProgress) =
      some dbCascade.moduleProgress ∧
    (markContentAsCompleted 5 "b1" dbCascade).map
        (fun d => d.moduleProgress.map
          (fun mp => (mp.completedContentCount, mp.contentCompletionPercentage))) =
      some [(1, 50)] ∧
    dbCascade.moduleProgress.map
        (fun mp => (mp.completedContentCount, mp.contentCompletionPercentage)) = [(0, 0)] := by
  decide

/-- C2 (code bug): after `update_quiz_attempt_status` records a completed
passing attempt, the auto-completion predicate for the owning module holds,
yet the command touches only `quiz_attempts`: `module_progress` is bytewise
unchanged and the module stays `in_progress`.  No cascade re-evaluation is
invoked from the quiz trigger. -/
theorem C2_quiz_completion_no_cascade :
    checkModuleAutoCompletion dbQuiz "e" "m" = false ∧
    checkModuleAutoCompletion
        (updateQuizAttemptStatus 5 "a1" "completed" (some 90) (some true) dbQuiz)
        "e" "m" = true ∧
    (updateQuizAttemptStatus 5 "a1" "completed" (some 90) (some true) dbQuiz).moduleProgress =
      dbQuiz.moduleProgress ∧
    dbQuiz.moduleProgress.map (fun mp => mp.status) = ["in_progress"] := by
  decide

/-- C3 counterexample: for a module with zero content blocks (and no quiz) the
claim's predicate — "every content item has a completed row AND (no quiz OR
passing attempt)" — holds vacuously, yet `check_module_auto_completion`
returns `false` (its SQL maps `COUNT(*) = 0` to not-all-completed).  So the
claimed "exactly when" equivalence fails. -/
theorem C3_counterexample_empty_module :
    specModuleAutoComplete dbEmptyMod "e" "m" ∧
    checkModuleAutoCompletion dbEmptyMod "e" "m" = false := by
  constructor
  · refine ⟨?_, Or.inl (by decide)⟩
    intro cb hcb
    simp [dbEmptyMod, emptyDB] at hcb
  · decide

/-- C4 counterexample: `delete_expired_offline_sessions` acts on a session that
is NOT already soft-deleted: a not-deleted session whose expiry lies beyond the
retention window gets its `is_deleted` flag set (the count reports one changed
row) — refuting "acts only on sessions that are already soft-deleted". -/
theorem C4_counterexample_acts_on_undeleted :
    dbPurge.offlineSessions.map (fun s => s.isDeleted) = [false] ∧
    (deleteExpiredOfflineSessions 86501 1 dbPurge).1.offlineSessions.map
        (fun s => s.isDeleted) = [true] ∧
    (deleteExpiredOfflineSessions 86501 1 dbPurge).2 = 1 := by
  decide

/-- C4 (amended): the purge is a soft delete, not a hard delete.  Row for row
(same ids, same count — nothing is ever removed), a session ends up deleted
exactly when it already was, or it was not yet soft-deleted and expired more
than `days_old` days ago; any other session is untouched. -/
theorem C4_purge_soft_deletes_only (now daysOld : Nat) (db : DB) :
    List.Forall₂ (fun s s' =>
        s'.id = s.id ∧ s'.expiresAt = s.expiresAt ∧
        s'.isDeleted = (s.isDeleted || decide (s.expiresAt + daysOld * 86400 < now)) ∧
        (¬(s.isDeleted = false ∧ s.expiresAt + daysOld * 86400 < now) → s' = s))
      db.offlineSessions
      (deleteExpiredOfflineSessions now daysOld db).1.offlineSessions := by
  unfold deleteExpiredOfflineSessions
  refine List.forall₂_map_right_iff.mpr (List.forall₂_same.mpr ?_)
  intro s _
  by_cases h1 : s.isDeleted <;> by_cases h2 : s.expiresAt + daysOld * 86400 < now <;>
    simp [h1, h2]

/-- C5 counterexample: `update_module_status` writes the caller's status
verbatim, so it moves a module from `completed` back to `in_progress`, refuting
"no operation ever moves a module from Completed back". -/
theorem C5_counterexample_status_regression :
    dbDone.moduleProgress.map (fun mp => mp.status) = ["completed"] ∧
    (updateModuleStatus 5 "mp" "in_progress" dbDone).moduleProgress.map
        (fun mp => mp.status) = ["in_progress"] := by
  decide

/-- C5 (amended): the cascade path (`mark_content_as_completed`) never moves a
module off `completed`, and it changes a row's status only to `completed` and
only when the auto-completion predicate holds at that point of the cascade;
the explicit override operations `update_module_status` and
`save_module_progress` store the caller-supplied status verbatim in the row
they write (every other row of the result is a pre-existing row), which is how
a Completed module can regress to InProgress/NotStarted. -/
theorem C5_status_policy :
    (∀ (db : DB) (now : Nat) (cid : String) (db' : DB),
        markContentAsCompleted now cid db = some db' →
        ∃ me, resolveCtx db cid = some me ∧
          List.Forall₂ (fun mp mp' =>
              (mp.status = "completed" → mp'.status = "completed") ∧
              (mp'.status = mp.status ∨
                (mp'.status = "completed" ∧
                 checkModuleAutoCompletion
                   (mccW2 now me.2 me.1 (mccW1 now me.2 cid db)) me.2 me.1 = true)))
            db.moduleProgress db'.moduleProgress) ∧
    (∀ (db : DB) (now : Nat) (mpId st : String) (mp' : ModuleProgress),
        mp' ∈ (updateModuleStatus now mpId st db).moduleProgress →
        mp'.status = st ∨ mp' ∈ db.moduleProgress) ∧
    (∀ (db : DB) (now : Nat) (inp : ModuleProgressInput) (mp' : ModuleProgress),
        mp' ∈ (saveModuleProgress now inp db).moduleProgress →
        mp'.status = inp.status ∨ mp' ∈ db.moduleProgress) := by
  refine ⟨?_, ?_, ?_⟩
  · intro db now cid db' h
    unfold markContentAsCompleted at h
    cases hres : resolveCtx db cid with
    | none => rw [hres] at h; exact absurd h (by simp)
    | some me =>
      rw [hres] at h
      dsimp only [Option.bind] at h
      split at h
      · injection h with h
        subst h
        refine ⟨me, rfl, ?_⟩
        show List.Forall₂ _ db.moduleProgress
          (bumpEnrollment now me.2 (mccW3 now me.2 me.1
            (mccW2 now me.2 me.1 (mccW1 now me.2 cid db)))).moduleProgress
        have hbump : (bumpEnrollment now me.2 (mccW3 now me.2 me.1
            (mccW2 now me.2 me.1 (mccW1 now me.2 cid db)))).moduleProgress =
            (mccW3 now me.2 me.1
              (mccW2 now me.2 me.1 (mccW1 now me.2 cid db))).moduleProgress := rfl
        rw [hbump]
        unfold mccW3
        split
        case isTrue hb =>
          show List.Forall₂ _ db.moduleProgress
            (((mccW2 now me.2 me.1 (mccW1 now me.2 cid db)).moduleProgress).map _)
          have hX2mp : (mccW2 now me.2 me.1 (mccW1 now me.2 cid db)).moduleProgress =
              db.moduleProgress.map (fun mp =>
                if mp.enrollmentId == me.2 && mp.moduleId == me.1 then
                  { mp with
                    contentCompletionPercentage := roundPercent (completedContentCount (mccW1 now me.2 cid db).contentBlocks (mccW1 now me.2 cid db).contentProgress me.2 me.1) (totalContentCount (mccW1 now me.2 cid db).contentBlocks me.1),
                    completedContentCount := completedContentCount (mccW1 now me.2 cid db).contentBlocks (mccW1 now me.2 cid db).contentProgress me.2 me.1,
                    totalContentCount := totalContentCount (mccW1 now me.2 cid db).contentBlocks me.1,
                    updatedAt := some now, lastSyncedAt := some now }
                else mp) := rfl
          rw [hX2mp, List.map_map]
          apply forall2_map_rel
          intro mp
          by_cases h1 : (mp.enrollmentId == me.2 && mp.moduleId == me.1) = true <;>
            simp [Function.comp, h1, hb]
        case isFalse hb =>
          show List.Forall₂ _ db.moduleProgress
            (mccW2 now me.2 me.1 (mccW1 now me.2 cid db)).moduleProgress
          have hX2mp : (mccW2 now me.2 me.1 (mccW1 now me.2 cid db)).moduleProgress =
              db.moduleProgress.map (fun mp =>
                if mp.enrollmentId == me.2 && mp.moduleId == me.1 then
                  { mp with
                    contentCompletionPercentage := roundPercent (completedContentCount (mccW1 now me.2 cid db).contentBlocks (mccW1 now me.2 cid db).contentProgress me.2 me.1) (totalContentCount (mccW1 now me.2 cid db).contentBlocks me.1),
                    completedContentCount := completedContentCount (mccW1 now me.2 cid db).contentBlocks (mccW1 now me.2 cid db).contentProgress me.2 me.1,
                    totalContentCount := totalContentCount (mccW1 now me.2 cid db).contentBlocks me.1,
                    updatedAt := some now, lastSyncedAt := some now }
                else mp) := rfl
          rw [hX2mp]
          apply forall2_map_rel
          intro mp
          by_cases h1 : (mp.enrollmentId == me.2 && mp.moduleId == me.1) = true <;>
            simp [h1]
      · exact absurd h (by simp)
  · intro db now mpId st mp' h
    unfold updateModuleStatus at h
    split at h <;> [skip; split at h] <;>
    · simp only at h
      rcases List.mem_map.mp h with ⟨mp, hmp, rfl⟩
      by_cases h1 : (mp.id == mpId) = true <;> simp [h1, hmp]
  · intro db now inp mp' h
    unfold saveModuleProgress bumpEnrollment at h
    simp only at h
    rcases List.mem_append.mp h with hl | hr
    · exact Or.inr (List.mem_of_mem_filter hl)
    · left
      rw [List.mem_singleton.mp hr]

/-- Payload replacing `dbDone`'s completed row with status `not_started`. -/
def inpRegress : ModuleProgressInput :=
  { id := "mp", enrollmentId := "e", moduleId := "m", status := "not_started",
    startedAt := none, completedAt := none, autoCompleted := false,
    contentCompletionPercentage := 0, completedContentCount := 0,
    totalContentCount := 2, createdAt := some 0, updatedAt := some 0 }

/-- The row `save_module_progress` stores for `inpRegress` at t=5. -/
def mpSaved : ModuleProgress :=
  { id := "mp", enrollmentId := "e", moduleId := "m", status := "not_started",
    startedAt := none, completedAt := none, autoCompleted := false,
    contentCompletionPercentage := 0, completedContentCount := 0,
    totalContentCount := 2, createdAt := some 0, updatedAt := some 0,
    lastSyncedAt := some 5 }

/-- C5 witness: the cascade part applied to completing block `b1` of
`dbCascade`, the verbatim parts applied to the two regressions of `dbDone`
(via `update_module_status` and via `save_module_progress`). -/
theorem C5_witness :
    (∃ me, resolveCtx dbCascade "b1" = some me ∧
      List.Forall₂ (fun mp mp' =>
          (mp.status = "completed" → mp'.status = "completed") ∧
          (mp'.status = mp.status ∨
            (mp'.status = "completed" ∧
             checkModuleAutoCompletion
               (mccW2 5 me.2 me.1 (mccW1 5 me.2 "b1" dbCascade)) me.2 me.1 = true)))
        dbCascade.moduleProgress
        ((markContentAsCompleted 5 "b1" dbCascade).getD dbCascade).moduleProgress) ∧
    ({ mp0 with status := "in_progress", completedAt := some 1, startedAt := some 5,
                updatedAt := some 5, lastSyncedAt := some 5 : ModuleProgress }.status =
        "in_progress" ∨
     { mp0 with status := "in_progress", completedAt := some 1, startedAt := some 5,
                updatedAt := some 5, lastSyncedAt := some 5 : ModuleProgress } ∈
        dbDone.moduleProgress) ∧
    (mpSaved.status = inpRegress.status ∨ mpSaved ∈ dbDone.moduleProgress) :=
  ⟨C5_status_policy.1 dbCascade 5 "b1"
      ((markContentAsCompleted 5 "b1" dbCascade).getD dbCascade) (by decide),
   C5_status_policy.2.1 dbDone 5 "mp" "in_progress"
      { mp0 with status := "in_progress", completedAt := some 1, startedAt := some 5,
                 updatedAt := some 5, lastSyncedAt := some 5 } (by decide),
   C5_status_policy.2.2 dbDone 5 inpRegress mpSaved (by decide)⟩

/-- C6 (confirmed): `mark_content_as_viewed` never lowers `is_completed` and
never clears `completed_at`: every pre-existing row keeps both fields
(row-for-row), and the row of the viewed content item is exactly the old row
with `viewed_at`/`updated_at`/`last_synced_at` refreshed to now. -/
theorem C6_view_preserves_completion (db : DB) (now : Nat) (cid : String) (db' : DB)
    (h : markContentAsViewed now cid db = some db') :
    List.Forall₂ (fun r r' => r'.isCompleted = r.isCompleted ∧ r'.completedAt = r.completedAt)
      db.contentProgress (db'.contentProgress.take db.contentProgress.length) ∧
    (∀ me r, resolveCtx db cid = some me →
      db.contentProgress.find? (cpKey me.2 cid) = some r →
      db'.contentProgress.find? (cpKey me.2 cid) =
        some { r with viewedAt := some now, updatedAt := some now,
                      lastSyncedAt := some now }) := by
  unfold markContentAsViewed at h
  cases hres : resolveCtx db cid with
  | none => rw [hres] at h; exact absurd h (by simp)
  | some me =>
    rw [hres] at h
    dsimp only [Option.bind] at h
    have hpres : ∀ x : ContentProgress,
        cpKey me.2 cid (if cpKey me.2 cid x then
          { x with viewedAt := some now, updatedAt := some now,
                   lastSyncedAt := some now } else x) = cpKey me.2 cid x := by
      intro x
      by_cases hx : cpKey me.2 cid x
      · rw [if_pos hx]; simp [cpKey]
      · rw [if_neg hx]
    cases hex : db.contentProgress.find? (cpKey me.2 cid) with
    | some r =>
      rw [hex] at h
      have hany := any_of_find?_eq_some hex
      have hkey := List.find?_some hex
      have hguard : (db.contentProgress.map (fun x =>
          if cpKey me.2 cid x then
            { x with viewedAt := some now, updatedAt := some now,
                     lastSyncedAt := some now } else x)).any (cpKey me.2 cid) = true := by
        rw [List.any_map]
        calc db.contentProgress.any ((cpKey me.2 cid) ∘ fun x =>
              if cpKey me.2 cid x then
                { x with viewedAt := some now, updatedAt := some now,
                         lastSyncedAt := some now } else x)
            = db.contentProgress.any (cpKey me.2 cid) :=
              anyCongr _ (fun x _ => hpres x)
          _ = true := hany
      have hfindmap : (db.contentProgress.map (fun x =>
          if cpKey me.2 cid x then
            { x with viewedAt := some now, updatedAt := some now,
                     lastSyncedAt := some now } else x)).find? (cpKey me.2 cid) =
          some { r with viewedAt := some now, updatedAt := some now,
                        lastSyncedAt := some now } := by
        rw [find?_map_of_pres hpres, hex]
        simp [hkey]
      cases hca : r.completedAt with
      | some v =>
        simp only [hca, Option.map_some', Option.getD_some] at h
        rw [upsertContentProgress, if_pos hany, if_pos hguard] at h
        injection h with h
        subst h
        refine ⟨forall2_cp_take_map _ _ ?_, ?_⟩
        · intro x
          by_cases hx : cpKey me.2 cid x
          · rw [if_pos hx]; exact ⟨rfl, rfl⟩
          · rw [if_neg hx]; exact ⟨rfl, rfl⟩
        · intro me' r' hres' hfind'
          have hme : me' = me := by
            injection hres' with hres'; exact hres'.symm
          subst hme
          rw [hex] at hfind'
          injection hfind' with hfind'
          subst hfind'
          exact hfindmap
      | none =>
        simp only [hca, Option.map_some', Option.getD_some] at h
        rw [upsertContentProgress, if_pos hany, if_pos hguard] at h
        injection h with h
        subst h
        refine ⟨forall2_cp_take_map _ _ ?_, ?_⟩
        · intro x
          by_cases hx : cpKey me.2 cid x
          · rw [if_pos hx]; exact ⟨rfl, rfl⟩
          · rw [if_neg hx]; exact ⟨rfl, rfl⟩
        · intro me' r' hres' hfind'
          have hme : me' = me := by
            injection hres' with hres'; exact hres'.symm
          subst hme
          rw [hex] at hfind'
          injection hfind' with hfind'
          subst hfind'
          exact hfindmap
    | none =>
      rw [hex] at h
      have hnone : db.contentProgress.any (cpKey me.2 cid) = false := by
        rcases hb : db.contentProgress.any (cpKey me.2 cid) with _ | _
        · rfl
        · exfalso
          rcases List.any_eq_true.mp hb with ⟨x, hx, hpx⟩
          exact List.find?_eq_none.mp hex x hx hpx
      simp only [Option.map_none', Option.getD_none] at h
      simp only [upsertContentProgress, hnone, Bool.false_eq_true, if_false,
        List.any_append, List.any_cons, List.any_nil, cpKey, beq_self_eq_true,
        Bool.and_true, Bool.true_and, Bool.or_false, Bool.false_or, if_true] at h
      injection h with h
      subst h
      refine ⟨forall2_cp_take_append _ _, ?_⟩
      intro me' r' hres' hfind'
      have hme : me' = me := by
        injection hres' with hres'; exact hres'.symm
      subst hme
      rw [hex] at hfind'
      exact absurd hfind' (by simp)

/-- C6 witness: re-viewing the already-completed block `b1` of `dbViewed`. -/
theorem C6_witness :
    List.Forall₂ (fun r r' => r'.isCompleted = r.isCompleted ∧ r'.completedAt = r.completedAt)
      dbViewed.contentProgress
      (((markContentAsViewed 7 "b1" dbViewed).getD dbViewed).contentProgress.take
        dbViewed.contentProgress.length) ∧
    (∀ me r, resolveCtx dbViewed "b1" = some me →
      dbViewed.contentProgress.find? (cpKey me.2 "b1") = some r →
      ((markContentAsViewed 7 "b1" dbViewed).getD dbViewed).contentProgress.find?
          (cpKey me.2 "b1") =
        some { r with viewedAt := some 7, updatedAt := some 7, lastSyncedAt := some 7 }) :=
  C6_view_preserves_completion dbViewed 7 "b1"
    ((markContentAsViewed 7 "b1" dbViewed).getD dbViewed) (by decide)

/-- C8 (confirmed): every session read derives `is_expired = now > expires_at`
and `is_valid = !is_deleted && !is_expired`; hence an expired, not-deleted
session reads as invalid-but-expired, soft-deleting makes subsequent reads
invalid, and every row of `get_student_offline_sessions` satisfies the same
two equations. -/
theorem C8_session_validity (now : Nat) (sid : String) (db : DB) (s : OfflineSession)
    (hfind : db.offlineSessions.find? (fun x => x.id == sid) = some s) :
    (getOfflineSessionById now sid db = some (sessionView now s) ∧
     (sessionView now s).isExpired = decide (s.expiresAt < now) ∧
     (sessionView now s).isValid = (!s.isDeleted && !decide (s.expiresAt < now))) ∧
    (s.isDeleted = false → s.expiresAt < now →
      ∃ v, getOfflineSessionById now sid db = some v ∧
        v.isValid = false ∧ v.isExpired = true) ∧
    (∀ v, getOfflineSessionById now sid (deleteOfflineSession now sid db) = some v →
      v.isValid = false) ∧
    (∀ stu cOpt act v, v ∈ getStudentOfflineSessions now stu cOpt act db →
      v.isExpired = decide (v.expiresAt < now) ∧
      v.isValid = (!v.isDeleted && !v.isExpired)) := by
  refine ⟨⟨?_, ?_, ?_⟩, ?_, ?_, ?_⟩
  · simp [getOfflineSessionById, hfind]
  · rfl
  · by_cases h1 : s.isDeleted <;> by_cases h2 : s.expiresAt < now <;>
      simp [sessionView, h1, h2]
  · intro hdel hexp
    refine ⟨sessionView now s, by simp [getOfflineSessionById, hfind], ?_, ?_⟩ <;>
      simp [sessionView, hdel, hexp]
  · intro v hv
    have hpres : ∀ x : OfflineSession,
        ((fun x => x.id == sid) ((fun s => if s.id == sid then
          { s with isDeleted := true, updatedAt := some now } else s) x)) =
        ((fun x => x.id == sid) x) := by
      intro x; by_cases h : x.id == sid <;> simp [h]
    rw [getOfflineSessionById, deleteOfflineSession] at hv
    simp only at hv
    rw [find?_map_of_pres hpres, hfind] at hv
    have hsid := List.find?_some hfind
    have heq : s.id = sid := by simpa using hsid
    simp [heq] at hv
    subst hv
    simp [sessionView]
  · intro stu cOpt act v hv
    rcases List.mem_map.mp hv with ⟨s', _, rfl⟩
    constructor
    · rfl
    · by_cases h1 : s'.isDeleted <;> by_cases h2 : s'.expiresAt < now <;>
        simp [sessionView, h1, h2]

/-- C8 witness: `dbSession` holds one session expiring at 10; read at 11 it is
expired and invalid, and after soft deletion it stays invalid. -/
theorem C8_witness :
    (∃ v, getOfflineSessionById 11 "s1" dbSession = some v ∧
      v.isValid = false ∧ v.isExpired = true) ∧
    (∀ v, getOfflineSessionById 11 "s1" (deleteOfflineSession 11 "s1" dbSession) = some v →
      v.isValid = false) :=
  ⟨(C8_session_validity 11 "s1" dbSession { sess0 with expiresAt := 10 }
      (by decide)).2.1 (by decide) (by decide),
   (C8_session_validity 11 "s1" dbSession { sess0 with expiresAt := 10 }
      (by decide)).2.2.1⟩

/-- C9 (confirmed): starting from an empty outbox, enqueuing A, B, C at
increasing instants and reading with limit 2 yields exactly [A, B]; the read
removes nothing (all three rows are still stored); after deleting A by its id,
the next limit-2 read yields [B, C]. -/
theorem C9_outbox_fifo (db : DB) (t1 t2 t3 : Nat)
    (o1 tb1 r1 d1 o2 tb2 r2 d2 o3 tb3 r3 d3 : String)
    (hq : db.syncQueue = []) (h12 : t1 < t2) (h23 : t2 < t3) :
    getSyncQueue (some 2)
        (addToSyncQueue t3 o3 tb3 r3 d3
          (addToSyncQueue t2 o2 tb2 r2 d2 (addToSyncQueue t1 o1 tb1 r1 d1 db))) =
      [{ id := db.nextSyncId, operationType := o1, tableName := tb1, recordId := r1,
         data := d1, createdAt := t1, retryCount := 0, lastRetryAt := none,
         errorMessage := none },
       { id := db.nextSyncId + 1, operationType := o2, tableName := tb2, recordId := r2,
         data := d2, createdAt := t2, retryCount := 0, lastRetryAt := none,
         errorMessage := none }] ∧
    (addToSyncQueue t3 o3 tb3 r3 d3
        (addToSyncQueue t2 o2 tb2 r2 d2 (addToSyncQueue t1 o1 tb1 r1 d1 db))).syncQueue =
      [{ id := db.nextSyncId, operationType := o1, tableName := tb1, recordId := r1,
         data := d1, createdAt := t1, retryCount := 0, lastRetryAt := none,
         errorMessage := none },
       { id := db.nextSyncId + 1, operationType := o2, tableName := tb2, recordId := r2,
         data := d2, createdAt := t2, retryCount := 0, lastRetryAt := none,
         errorMessage := none },
       { id := db.nextSyncId + 2, operationType := o3, tableName := tb3, recordId := r3,
         data := d3, createdAt := t3, retryCount := 0, lastRetryAt := none,
         errorMessage := none }] ∧
    getSyncQueue (some 2)
        (removeFromSyncQueue db.nextSyncId
          (addToSyncQueue t3 o3 tb3 r3 d3
            (addToSyncQueue t2 o2 tb2 r2 d2 (addToSyncQueue t1 o1 tb1 r1 d1 db)))) =
      [{ id := db.nextSyncId + 1, operationType := o2, tableName := tb2, recordId := r2,
         data := d2, createdAt := t2, retryCount := 0, lastRetryAt := none,
         errorMessage := none },
       { id := db.nextSyncId + 2, operationType := o3, tableName := tb3, recordId := r3,
         data := d3, createdAt := t3, retryCount := 0, lastRetryAt := none,
         errorMessage := none }] := by
  have e32 : decide (t3 ≤ t2) = false := by simp; omega
  have e21 : decide (t2 ≤ t1) = false := by simp; omega
  have hc : ((db.nextSyncId + 1 + 1 : Nat) == db.nextSyncId) = false := by
    simp; omega
  refine ⟨?_, ?_, ?_⟩
  · simp [addToSyncQueue, hq, getSyncQueue, sortByLe, insertByLe, e32, e21]
  · simp [addToSyncQueue, hq]
  · simp [addToSyncQueue, hq, getSyncQueue, removeFromSyncQueue, sortByLe,
      insertByLe, e32, hc]

/-- C9 witness: the FIFO scenario on the empty store with instants 1, 2, 3. -/
theorem C9_witness :
    getSyncQueue (some 2)
        (addToSyncQueue 3 "UPDATE" "tc" "rc" "dc"
          (addToSyncQueue 2 "UPDATE" "tb" "rb" "db"
            (addToSyncQueue 1 "INSERT" "ta" "ra" "da" emptyDB))) =
      [{ id := 0, operationType := "INSERT", tableName := "ta", recordId := "ra",
         data := "da", createdAt := 1, retryCount := 0, lastRetryAt := none,
         errorMessage := none },
       { id := 1, operationType := "UPDATE", tableName := "tb", recordId := "rb",
         data := "db", createdAt := 2, retryCount := 0, lastRetryAt := none,
         errorMessage := none }] ∧
    (addToSyncQueue 3 "UPDATE" "tc" "rc" "dc"
        (addToSyncQueue 2 "UPDATE" "tb" "rb" "db"
          (addToSyncQueue 1 "INSERT" "ta" "ra" "da" emptyDB))).syncQueue =
      [{ id := 0, operationType := "INSERT", tableName := "ta", recordId := "ra",
         data := "da", createdAt := 1, retryCount := 0, lastRetryAt := none,
         errorMessage := none },
       { id := 1, operationType := "UPDATE", tableName := "tb", recordId := "rb",
         data := "db", createdAt := 2, retryCount := 0, lastRetryAt := none,
         errorMessage := none },
       { id := 2, operationType := "UPDATE", tableName := "tc", recordId := "rc",
         data := "dc", createdAt := 3, retryCount := 0, lastRetryAt := none,
         errorMessage := none }] ∧
    getSyncQueue (some 2)
        (removeFromSyncQueue 0
          (addToSyncQueue 3 "UPDATE" "tc" "rc" "dc"
            (addToSyncQueue 2 "UPDATE" "tb" "rb" "db"
              (addToSyncQueue 1 "INSERT" "ta" "ra" "da" emptyDB)))) =
      [{ id := 1, operationType := "UPDATE", tableName := "tb", recordId := "rb",
         data := "db", createdAt := 2, retryCount := 0, lastRetryAt := none,
         errorMessage := none },
       { id := 2, operationType := "UPDATE", tableName := "tc", recordId := "rc",
         data := "dc", createdAt := 3, retryCount := 0, lastRetryAt := none,
         errorMessage := none }] :=
  C9_outbox_fifo emptyDB 1 2 3 "INSERT" "ta" "ra" "da" "UPDATE" "tb" "rb" "db"
    "UPDATE" "tc" "rc" "dc" rfl (by decide) (by decide)

/-- C10 (confirmed): a module with zero content blocks never auto-completes:
the `COUNT(*) = 0` arm of the SQL makes the all-content check fail, so
`check_module_auto_completion` returns false regardless of quiz state. -/
theorem C10_empty_module_no_auto_complete (db : DB) (e m : String)
    (h : db.contentBlocks.filter (fun cb => cb.moduleId == m) = []) :
    checkModuleAutoCompletion db e m = false := by
  unfold checkModuleAutoCompletion
  simp [h]

/-- C10 witness: the zero-content module of `dbEmptyMod`. -/
theorem C10_witness : checkModuleAutoCompletion dbEmptyMod "e" "m" = false :=
  C10_empty_module_no_auto_complete dbEmptyMod "e" "m" (by decide)

theorem boolGate (a b q : Bool) :
    (if !a then false else if !b then true else q) = (a && (!b || q)) := by
  cases a <;> cases b <;> cases q <;> simp

/-- C3 (amended): `check_module_auto_completion` returns true exactly when the
module has AT LEAST ONE content block, every content block has a completed
progress row for the enrollment, and the module has no quiz or some completed
passing attempt by the enrolled student exists (the nonemptiness conjunct is
what the counterexample forces onto the claim); and whenever the predicate
holds during `mark_content_as_completed`, the module-progress row of that
(enrollment, module) ends with status `completed`, `auto_completed = 1` and
`completed_at = now`. -/
theorem C3_auto_completion_characterization :
    (∀ (db : DB) (e m : String),
      checkModuleAutoCompletion db e m = true ↔
        (db.contentBlocks.filter (fun cb => cb.moduleId == m) ≠ [] ∧
         specModuleAutoComplete db e m)) ∧
    (∀ (db : DB) (now : Nat) (cid : String) (me : String × String) (db' : DB),
      resolveCtx db cid = some me →
      markContentAsCompleted now cid db = some db' →
      checkModuleAutoCompletion (mccW2 now me.2 me.1 (mccW1 now me.2 cid db))
          me.2 me.1 = true →
      ∀ mp' ∈ db'.moduleProgress, mp'.enrollmentId = me.2 → mp'.moduleId = me.1 →
        mp'.status = "completed" ∧ mp'.autoCompleted = true ∧
        mp'.completedAt = some now) := by
  constructor
  · intro db e m
    unfold checkModuleAutoCompletion specModuleAutoComplete
    rw [boolGate]
    simp only [Bool.and_eq_true, Bool.or_eq_true, Bool.not_eq_true',
      List.all_eq_true, List.any_eq_true, beq_iff_eq, Bool.not_eq_eq_eq_not,
      Bool.not_true, Bool.not_false]
    constructor
    · rintro ⟨⟨hne, hall⟩, hq⟩
      refine ⟨?_, ?_, ?_⟩
      · intro hnil
        rw [hnil] at hne
        simp at hne
      · intro cb hcb
        rcases hall cb hcb with ⟨cp, hcp, ⟨h1, h2⟩, h3⟩
        exact ⟨cp, hcp, h1, h2, h3⟩
      · rcases hq with hq | ⟨qa, hqa, ⟨⟨⟨hqz, hus⟩, hen⟩, hs⟩, hp⟩
        · exact Or.inl hq
        · rcases hus with ⟨u, hu1, hu2⟩
          exact Or.inr ⟨qa, hqa, hqz, hu2 ▸ hu1, hen, hs, hp⟩
    · rintro ⟨hne, hall, hq⟩
      refine ⟨⟨?_, ?_⟩, ?_⟩
      · cases hfe : (db.contentBlocks.filter (fun cb => cb.moduleId == m)).isEmpty
        · rfl
        · exact absurd (List.isEmpty_iff.mp hfe) hne
      · intro cb hcb
        rcases hall cb hcb with ⟨cp, hcp, h1, h2, h3⟩
        exact ⟨cp, hcp, ⟨h1, h2⟩, h3⟩
      · rcases hq with hq | ⟨qa, hqa, hqz, hu, hen, hs, hp⟩
        · exact Or.inl hq
        · exact Or.inr ⟨qa, hqa, ⟨⟨⟨hqz, ⟨qa.studentId, hu, rfl⟩⟩, hen⟩, hs⟩, hp⟩
  · intro db now cid me db' hres h hchk
    unfold markContentAsCompleted at h
    rw [hres] at h
    dsimp only [Option.bind] at h
    split at h
    · injection h with h
      subst h
      intro mp' hmem h1 h2
      rw [bumpEnrollment] at hmem
      simp only at hmem
      rw [mccW3, if_pos hchk] at hmem
      simp only at hmem
      rcases List.mem_map.mp hmem with ⟨mp, hmp, rfl⟩
      by_cases hcnd : (mp.enrollmentId == me.2 && mp.moduleId == me.1) = true
      · simp [hcnd]
      · rw [if_neg hcnd] at h1 h2
        exact absurd (by simp [h1, h2]) hcnd
    · exact absurd h (by simp)

/-- C3 witness: completing the single block of `dbOneBlock` auto-completes its
module with `auto_completed = 1` and `completed_at = now`. -/
theorem C3_witness :
    (checkModuleAutoCompletion dbOneBlock "e" "m" = true ↔
      (dbOneBlock.contentBlocks.filter (fun cb => cb.moduleId == "m") ≠ [] ∧
       specModuleAutoComplete dbOneBlock "e" "m")) ∧
    (∀ mp' ∈ ((markContentAsCompleted 5 "b1" dbOneBlock).getD dbOneBlock).moduleProgress,
      mp'.enrollmentId = ("m", "e").2 → mp'.moduleId = ("m", "e").1 →
      mp'.status = "completed" ∧ mp'.autoCompleted = true ∧
      mp'.completedAt = some 5) :=
  ⟨C3_auto_completion_characterization.1 dbOneBlock "e" "m",
   C3_auto_completion_characterization.2 dbOneBlock 5 "b1" ("m", "e")
     ((markContentAsCompleted 5 "b1" dbOneBlock).getD dbOneBlock)
     (by decide) (by decide) (by decide)⟩

def zcp (r : ContentProgress) : ContentProgress :=
  { r with viewedAt := none, completedAt := none, createdAt := none,
           updatedAt := none, lastSyncedAt := none }

def zmp (r : ModuleProgress) : ModuleProgress :=
  { r with startedAt := none, completedAt := none, createdAt := none,
           updatedAt := none, lastSyncedAt := none }

def zenr (e : Enrollment) : Enrollment := { e with updatedAt := 0 }

def eraseTimestamps (db : DB) : DB :=
  { db with enrollments := db.enrollments.map zenr,
            contentProgress := db.contentProgress.map zcp,
            moduleProgress := db.moduleProgress.map zmp }

def cpNodup (l : List ContentProgress) : Prop :=
  (l.map (fun r => (r.enrollmentId, r.contentId))).Nodup

theorem any_zcp_lift (P : ContentProgress → Bool) (hP : ∀ x, P (zcp x) = P x)
    {l1 l2 : List ContentProgress} (h : l1.map zcp = l2.map zcp) :
    l1.any P = l2.any P := by
  have e1 : (l1.map zcp).any P = l1.any P := by
    rw [List.any_map]; exact anyCongr _ (fun x _ => hP x)
  have e2 : (l2.map zcp).any P = l2.any P := by
    rw [List.any_map]; exact anyCongr _ (fun x _ => hP x)
  rw [← e1, h, e2]

theorem any_zenr_lift (P : Enrollment → Bool) (hP : ∀ x, P (zenr x) = P x)
    {l1 l2 : List Enrollment} (h : l1.map zenr = l2.map zenr) :
    l1.any P = l2.any P := by
  have e1 : (l1.map zenr).any P = l1.any P := by
    rw [List.any_map]; exact anyCongr _ (fun x _ => hP x)
  have e2 : (l2.map zenr).any P = l2.any P := by
    rw [List.any_map]; exact anyCongr _ (fun x _ => hP x)
  rw [← e1, h, e2]

theorem countP_zcp_lift (P : ContentProgress → Bool) (hP : ∀ x, P (zcp x) = P x)
    {l1 l2 : List ContentProgress} (h : l1.map zcp = l2.map zcp) :
    l1.countP P = l2.countP P := by
  have e1 : (l1.map zcp).countP P = l1.countP P := by
    rw [List.countP_map]
    exact List.countP_congr (fun x _ => by simp [Function.comp, hP x])
  have e2 : (l2.map zcp).countP P = l2.countP P := by
    rw [List.countP_map]
    exact List.countP_congr (fun x _ => by simp [Function.comp, hP x])
  rw [← e1, h, e2]

theorem foldl_pickLatest_congr :
    ∀ (l1 l2 : List Enrollment) (a1 a2 : Option Enrollment),
      l1.map zenr = l2.map zenr → a1.map zenr = a2.map zenr →
      (l1.foldl pickLatest a1).map zenr = (l2.foldl pickLatest a2).map zenr := by
  intro l1
  induction l1 with
  | nil =>
    intro l2 a1 a2 hl ha
    have hnil : l2 = [] := by
      cases l2 with
      | nil => rfl
      | cons b t => simp at hl
    subst hnil
    simpa using ha
  | cons a t ih =>
    intro l2 a1 a2 hl ha
    cases l2 with
    | nil => simp at hl
    | cons b t2 =>
      simp only [List.map_cons, List.cons.injEq] at hl
      obtain ⟨hab, ht⟩ := hl
      simp only [List.foldl_cons]
      apply ih t2 _ _ ht
      have hac : a.createdAt = b.createdAt := by
        have hc := congrArg Enrollment.createdAt hab
        simpa [zenr] using hc
      cases a1 with
      | none =>
        cases a2 with
        | none => simpa [pickLatest] using hab
        | some y => simp at ha
      | some x =>
        cases a2 with
        | none => simp at ha
        | some y =>
          simp only [Option.map_some', Option.some.injEq] at ha
          have hxc : x.createdAt = y.createdAt := by
            have hc := congrArg Enrollment.createdAt ha
            simpa [zenr] using hc
          simp only [pickLatest]
          rw [hxc, hac]
          by_cases hlt : y.createdAt < b.createdAt <;> simp [hlt, hab, ha]

theorem filter_map_zenr_congr (p : Enrollment → Bool)
    (hp : ∀ x, p (zenr x) = p x) :
    ∀ (l1 l2 : List Enrollment), l1.map zenr = l2.map zenr →
      (l1.filter p).map zenr = (l2.filter p).map zenr := by
  intro l1
  induction l1 with
  | nil =>
    intro l2 h
    cases l2 with
    | nil => rfl
    | cons b t => simp at h
  | cons a t ih =>
    intro l2 h
    cases l2 with
    | nil => simp at h
    | cons b t2 =>
      simp only [List.map_cons, List.cons.injEq] at h
      obtain ⟨hab, ht⟩ := h
      have hpab : p a = p b := by rw [← hp a, ← hp b, hab]
      simp only [List.filter_cons, ← hpab]
      by_cases hpa : p a = true
      · simp only [hpa, if_true, List.map_cons, hab, ih t2 ht]
      · simp only [Bool.of_not_eq_true hpa, Bool.false_eq_true, if_false, ih t2 ht]

theorem latestEnrollment_congr (dbA dbB : DB) (c : String)
    (hu : dbA.users = dbB.users)
    (he : dbA.enrollments.map zenr = dbB.enrollments.map zenr) :
    (latestEnrollment dbA c).map zenr = (latestEnrollment dbB c).map zenr := by
  unfold latestEnrollment
  rw [hu]
  apply foldl_pickLatest_congr _ _ none none _ rfl
  apply filter_map_zenr_congr _ _ _ _ he
  intro x
  simp [zenr]


theorem resolveCtx_congr (dbA dbB : DB) (cid : String)
    (hcb : dbA.contentBlocks = dbB.contentBlocks)
    (hm : dbA.modules = dbB.modules)
    (hu : dbA.users = dbB.users)
    (he : dbA.enrollments.map zenr = dbB.enrollments.map zenr) :
    resolveCtx dbA cid = resolveCtx dbB cid := by
  unfold resolveCtx
  rw [hcb, hm]
  cases hf : dbB.contentBlocks.find? (fun b => b.id == cid) with
  | none => rfl
  | some cb =>
    dsimp only
    cases hf2 : dbB.modules.find? (fun m => m.id == cb.moduleId) with
    | none => rfl
    | some md =>
      dsimp only
      have hlat := latestEnrollment_congr dbA dbB md.courseId hu he
      cases hA : latestEnrollment dbA md.courseId with
      | none =>
        cases hB : latestEnrollment dbB md.courseId with
        | none => rfl
        | some eb => rw [hA, hB] at hlat; simp at hlat
      | some ea =>
        cases hB : latestEnrollment dbB md.courseId with
        | none => rw [hA, hB] at hlat; simp at hlat
        | some eb =>
          rw [hA, hB] at hlat
          simp only [Option.map_some', Option.some.injEq] at hlat
          have hid : ea.id = eb.id := by
            have hc := congrArg Enrollment.id hlat
            simpa [zenr] using hc
          dsimp only
          rw [hid]

theorem check_congr (dbA dbB : DB) (e m : String)
    (hcb : dbA.contentBlocks = dbB.contentBlocks)
    (hm : dbA.modules = dbB.modules)
    (hq : dbA.quizzes = dbB.quizzes)
    (hqa : dbA.quizAttempts = dbB.quizAttempts)
    (hu : dbA.users = dbB.users)
    (hcp : dbA.contentProgress.map zcp = dbB.contentProgress.map zcp)
    (he : dbA.enrollments.map zenr = dbB.enrollments.map zenr) :
    checkModuleAutoCompletion dbA e m = checkModuleAutoCompletion dbB e m := by
  have h1 : (fun cb : ContentBlock => dbA.contentProgress.any
      (fun cp => cp.enrollmentId == e && cp.contentId == cb.id && cp.isCompleted)) =
      (fun cb : ContentBlock => dbB.contentProgress.any
      (fun cp => cp.enrollmentId == e && cp.contentId == cb.id && cp.isCompleted)) := by
    funext cb
    exact any_zcp_lift _ (fun x => by simp [zcp]) hcp
  have h2' : ∀ qa : QuizAttempt, dbA.enrollments.any
      (fun en => qa.studentId == en.studentId && en.id == e) =
      dbB.enrollments.any (fun en => qa.studentId == en.studentId && en.id == e) :=
    fun qa => any_zenr_lift _ (fun x => by simp [zenr]) he
  unfold checkModuleAutoCompletion
  rw [hcb, hm, hq, hqa, hu, h1]
  rw [anyCongr (f := fun qa : QuizAttempt =>
      dbB.quizzes.any (fun q => qa.quizId == q.id && q.moduleId == m) &&
      dbB.users.any (fun u => qa.studentId == u) &&
      dbA.enrollments.any (fun en => qa.studentId == en.studentId && en.id == e) &&
      qa.status == "completed" && qa.passed == some true)
    (g := fun qa : QuizAttempt =>
      dbB.quizzes.any (fun q => qa.quizId == q.id && q.moduleId == m) &&
      dbB.users.any (fun u => qa.studentId == u) &&
      dbB.enrollments.any (fun en => qa.studentId == en.studentId && en.id == e) &&
      qa.status == "completed" && qa.passed == some true)
    dbB.quizAttempts (fun qa _ => by simp only [h2' qa])]

theorem cpKey_if_pres (e c : String) (f : ContentProgress → ContentProgress)
    (hf : ∀ x, (f x).enrollmentId = x.enrollmentId ∧ (f x).contentId = x.contentId) :
    ∀ x, cpKey e c (if cpKey e c x then f x else x) = cpKey e c x := by
  intro x
  by_cases hx : cpKey e c x
  · rw [if_pos hx]; simp [cpKey, (hf x).1, (hf x).2]
  · rw [if_neg hx]

theorem mccW1_key_completed (now : Nat) (e c : String) (db : DB) :
    ∀ r ∈ (mccW1 now e c db).contentProgress, cpKey e c r = true → r.isCompleted = true := by
  unfold mccW1 upsertContentProgress
  simp only
  split
  case isTrue hex =>
    intro r hr hk
    rcases List.mem_map.mp hr with ⟨x, hx, rfl⟩
    by_cases hkx : cpKey e c x = true
    · rw [if_pos hkx]
    · rw [if_neg hkx] at hk
      exact absurd hk hkx
  case isFalse hex =>
    intro r hr hk
    rcases List.mem_append.mp hr with hl | hr1
    · exact absurd (List.any_eq_true.mpr ⟨r, hl, hk⟩) hex
    · rw [List.mem_singleton.mp hr1]
  
theorem mccW1_key_exists (now : Nat) (e c : String) (db : DB) :
    (mccW1 now e c db).contentProgress.any (cpKey e c) = true := by
  unfold mccW1 upsertContentProgress
  simp only
  split
  case isTrue hex =>
    rw [List.any_map]
    calc db.contentProgress.any ((cpKey e c) ∘ fun r =>
          if cpKey e c r then
            { r with isCompleted := true, completedAt := some now,
                     updatedAt := some now, lastSyncedAt := some now } else r)
        = db.contentProgress.any (cpKey e c) :=
          anyCongr _ (fun x _ => cpKey_if_pres e c
            (fun r => { r with isCompleted := true, completedAt := some now,
                               updatedAt := some now, lastSyncedAt := some now })
            (fun x => ⟨rfl, rfl⟩) x)
      _ = true := hex
  case isFalse hex =>
    simp [List.any_append, cpKey]

theorem mccW1_zcp_stable (now : Nat) (e c : String) (db : DB)
    (hex : db.contentProgress.any (cpKey e c) = true)
    (hall : ∀ r ∈ db.contentProgress, cpKey e c r = true → r.isCompleted = true) :
    (mccW1 now e c db).contentProgress.map zcp = db.contentProgress.map zcp := by
  unfold mccW1 upsertContentProgress
  simp only
  rw [if_pos hex, List.map_map]
  apply List.map_congr_left
  intro x hx
  by_cases hkx : cpKey e c x = true
  · have hcomp := hall x hx hkx
    simp [Function.comp, hkx, zcp, hcomp]
  · simp [Function.comp, hkx]

theorem mccW1_nodup (now : Nat) (e c : String) (db : DB)
    (h : cpNodup db.contentProgress) : cpNodup (mccW1 now e c db).contentProgress := by
  unfold cpNodup at h
  unfold mccW1 upsertContentProgress cpNodup
  simp only
  split
  case isTrue hex =>
    rw [List.map_map]
    have hcomp : ((fun r : ContentProgress => (r.enrollmentId, r.contentId)) ∘ fun r =>
        if cpKey e c r then
          { r with isCompleted := true, completedAt := some now,
                   updatedAt := some now, lastSyncedAt := some now } else r) =
        fun r : ContentProgress => (r.enrollmentId, r.contentId) := by
      funext x
      by_cases hkx : cpKey e c x = true <;> simp [Function.comp, hkx]
    rw [hcomp]
    exact h
  case isFalse hex =>
    rw [List.map_append]
    apply List.Nodup.append h (by simp)
    intro a ha hb
    simp only [List.map_cons, List.map_nil, List.mem_singleton] at hb
    rcases List.mem_map.mp ha with ⟨r, hr, hkey⟩
    apply hex
    apply List.any_eq_true.mpr
    refine ⟨r, hr, ?_⟩
    have h1 : r.enrollmentId = e := by
      have := congrArg Prod.fst (hkey.trans hb)
      simpa using this
    have h2 : r.contentId = c := by
      have := congrArg Prod.snd (hkey.trans hb)
      simpa using this
    simp [cpKey, h1, h2]

theorem mccW3_contentProgress (now : Nat) (e m : String) (db : DB) :
    (mccW3 now e m db).contentProgress = db.contentProgress := by
  unfold mccW3; split <;> rfl

theorem mccW3_enrollments (now : Nat) (e m : String) (db : DB) :
    (mccW3 now e m db).enrollments = db.enrollments := by
  unfold mccW3; split <;> rfl

theorem mccW3_contentBlocks (now : Nat) (e m : String) (db : DB) :
    (mccW3 now e m db).contentBlocks = db.contentBlocks := by
  unfold mccW3; split <;> rfl

theorem mccW3_modules (now : Nat) (e m : String) (db : DB) :
    (mccW3 now e m db).modules = db.modules := by
  unfold mccW3; split <;> rfl

theorem mccW3_users (now : Nat) (e m : String) (db : DB) :
    (mccW3 now e m db).users = db.users := by
  unfold mccW3; split <;> rfl

theorem mccW3_quizzes (now : Nat) (e m : String) (db : DB) :
    (mccW3 now e m db).quizzes = db.quizzes := by
  unfold mccW3; split <;> rfl

theorem mccW3_quizAttempts (now : Nat) (e m : String) (db : DB) :
    (mccW3 now e m db).quizAttempts = db.quizAttempts := by
  unfold mccW3; split <;> rfl

theorem mccW3_offlineSessions (now : Nat) (e m : String) (db : DB) :
    (mccW3 now e m db).offlineSessions = db.offlineSessions := by
  unfold mccW3; split <;> rfl

theorem mccW3_syncQueue (now : Nat) (e m : String) (db : DB) :
    (mccW3 now e m db).syncQueue = db.syncQueue := by
  unfold mccW3; split <;> rfl

theorem mccW3_nextSyncId (now : Nat) (e m : String) (db : DB) :
    (mccW3 now e m db).nextSyncId = db.nextSyncId := by
  unfold mccW3; split <;> rfl

theorem completedContentCount_zcp (blocks : List ContentBlock) (e m : String)
    {l1 l2 : List ContentProgress} (h : l1.map zcp = l2.map zcp) :
    completedContentCount blocks l1 e m = completedContentCount blocks l2 e m := by
  unfold completedContentCount
  rw [← List.countP_eq_length_filter, ← List.countP_eq_length_filter]
  exact countP_zcp_lift _ (fun x => by simp [zcp]) h

/-- C7 (confirmed): running `mark_content_as_completed` twice on the same
content item yields, up to the timestamp columns (`viewed_at`, `completed_at`,
`started_at`, `created_at`, `updated_at`, `last_synced_at`, enrollment
`updated_at`), exactly the stored state of running it once: `is_completed`
stays 1, the recomputed count/percentage and the module status coincide, and
the `(enrollment_id, content_id)` key stays unique (no duplicate row). -/
theorem C7_mark_completed_idempotent (db : DB) (now1 now2 : Nat) (cid : String)
    (db1 db2 : DB)
    (h1 : markContentAsCompleted now1 cid db = some db1)
    (h2 : markContentAsCompleted now2 cid db1 = some db2) :
    eraseTimestamps db2 = eraseTimestamps db1 ∧
    (cpNodup db.contentProgress → cpNodup db2.contentProgress) := by
  unfold markContentAsCompleted at h1
  cases hres : resolveCtx db cid with
  | none => rw [hres] at h1; exact absurd h1 (by simp)
  | some me =>
  rw [hres] at h1
  dsimp only [Option.bind] at h1
  split at h1
  case isFalse => exact absurd h1 (by simp)
  case isTrue hg1 =>
  injection h1 with h1
  subst h1
  set X1 := mccW1 now1 me.2 cid db with hX1def
  set X2 := mccW2 now1 me.2 me.1 X1 with hX2def
  set X3 := mccW3 now1 me.2 me.1 X2 with hX3def
  set D1 := bumpEnrollment now1 me.2 X3 with hD1def
  have hD1cp : D1.contentProgress = X1.contentProgress :=
    mccW3_contentProgress now1 me.2 me.1 X2
  have hD1cb : D1.contentBlocks = db.contentBlocks :=
    mccW3_contentBlocks now1 me.2 me.1 X2
  have hD1m : D1.modules = db.modules := mccW3_modules now1 me.2 me.1 X2
  have hD1u : D1.users = db.users := mccW3_users now1 me.2 me.1 X2
  have hD1q : D1.quizzes = db.quizzes := mccW3_quizzes now1 me.2 me.1 X2
  have hD1qa : D1.quizAttempts = db.quizAttempts := mccW3_quizAttempts now1 me.2 me.1 X2
  have hD1enrz : D1.enrollments.map zenr = db.enrollments.map zenr := by
    have h3 : X3.enrollments = db.enrollments := mccW3_enrollments now1 me.2 me.1 X2
    have hbe : D1.enrollments = X3.enrollments.map
        (fun en => if en.id == me.2 then { en with updatedAt := now1 } else en) := rfl
    rw [hbe, h3, List.map_map]
    exact List.map_congr_left (fun x _ => by
      by_cases hx : (x.id == me.2) = true <;> simp [Function.comp, hx, zenr])
  have hres1 : resolveCtx D1 cid = some me := by
    rw [resolveCtx_congr D1 db cid hD1cb hD1m hD1u hD1enrz]
    exact hres
  unfold markContentAsCompleted at h2
  rw [hres1] at h2
  dsimp only [Option.bind] at h2
  split at h2
  case isFalse => exact absurd h2 (by simp)
  case isTrue hg2 =>
  injection h2 with h2
  subst h2
  set Y1 := mccW1 now2 me.2 cid D1 with hY1def
  set Y2 := mccW2 now2 me.2 me.1 Y1 with hY2def
  set Y3 := mccW3 now2 me.2 me.1 Y2 with hY3def
  set D2 := bumpEnrollment now2 me.2 Y3 with hD2def
  have hkeyall : ∀ r ∈ D1.contentProgress, cpKey me.2 cid r = true → r.isCompleted = true := by
    rw [hD1cp]
    exact mccW1_key_completed now1 me.2 cid db
  have hkeyex : D1.contentProgress.any (cpKey me.2 cid) = true := by
    rw [hD1cp]
    exact mccW1_key_exists now1 me.2 cid db
  have hY1cpz : Y1.contentProgress.map zcp = D1.contentProgress.map zcp :=
    mccW1_zcp_stable now2 me.2 cid D1 hkeyex hkeyall
  have hY1cpzX : Y1.contentProgress.map zcp = X1.contentProgress.map zcp := by
    rw [hY1cpz, hD1cp]
  have hblY : Y1.contentBlocks = X1.contentBlocks := hD1cb
  have hcnt : completedContentCount Y1.contentBlocks Y1.contentProgress me.2 me.1 =
      completedContentCount X1.contentBlocks X1.contentProgress me.2 me.1 := by
    rw [hblY]
    exact completedContentCount_zcp _ _ _ hY1cpzX
  have htot : totalContentCount Y1.contentBlocks me.1 =
      totalContentCount X1.contentBlocks me.1 := by
    rw [hblY]
  have hauto : checkModuleAutoCompletion Y2 me.2 me.1 =
      checkModuleAutoCompletion X2 me.2 me.1 := by
    apply check_congr
    · exact hblY
    · exact hD1m
    · exact hD1q
    · exact hD1qa
    · exact hD1u
    · exact hY1cpzX
    · exact hD1enrz
  have hcpz : D2.contentProgress.map zcp = D1.contentProgress.map zcp := by
    have hd : D2.contentProgress = Y1.contentProgress :=
      mccW3_contentProgress now2 me.2 me.1 Y2
    rw [hd, hY1cpz]
  have henz : D2.enrollments.map zenr = D1.enrollments.map zenr := by
    have h3 : Y3.enrollments = D1.enrollments := mccW3_enrollments now2 me.2 me.1 Y2
    have hbe : D2.enrollments = Y3.enrollments.map
        (fun en => if en.id == me.2 then { en with updatedAt := now2 } else en) := rfl
    rw [hbe, h3, List.map_map]
    exact List.map_congr_left (fun x _ => by
      by_cases hx : (x.id == me.2) = true <;> simp [Function.comp, hx, zenr])
  have hX3mp : X3.moduleProgress =
      (if checkModuleAutoCompletion X2 me.2 me.1 = true then
        X2.moduleProgress.map (fun mp =>
          if mp.enrollmentId == me.2 && mp.moduleId == me.1 then
            { mp with status := "completed", completedAt := some now1,
                      autoCompleted := true, updatedAt := some now1,
                      lastSyncedAt := some now1 }
          else mp)
      else X2.moduleProgress) := by
    rw [hX3def]
    unfold mccW3
    split <;> rfl

  have hY3mp : Y3.moduleProgress =
      (if checkModuleAutoCompletion Y2 me.2 me.1 = true then
        Y2.moduleProgress.map (fun mp =>
          if mp.enrollmentId == me.2 && mp.moduleId == me.1 then
            { mp with status := "completed", completedAt := some now2,
                      autoCompleted := true, updatedAt := some now2,
                      lastSyncedAt := some now2 }
          else mp)
      else Y2.moduleProgress) := by
    rw [hY3def]
    unfold mccW3
    split <;> rfl
  have hX2mp : X2.moduleProgress = db.moduleProgress.map (fun mp =>
      if mp.enrollmentId == me.2 && mp.moduleId == me.1 then
        { mp with
          contentCompletionPercentage := roundPercent (completedContentCount X1.contentBlocks X1.contentProgress me.2 me.1) (totalContentCount X1.contentBlocks me.1),
          completedContentCount := completedContentCount X1.contentBlocks X1.contentProgress me.2 me.1,
          totalContentCount := totalContentCount X1.contentBlocks me.1,
          updatedAt := some now1, lastSyncedAt := some now1 }
      else mp) := rfl
  have hY2mp : Y2.moduleProgress = Y1.moduleProgress.map (fun mp =>
      if mp.enrollmentId == me.2 && mp.moduleId == me.1 then
        { mp with
          contentCompletionPercentage := roundPercent (completedContentCount Y1.contentBlocks Y1.contentProgress me.2 me.1) (totalContentCount Y1.contentBlocks me.1),
          completedContentCount := completedContentCount Y1.contentBlocks Y1.contentProgress me.2 me.1,
          totalContentCount := totalContentCount Y1.contentBlocks me.1,
          updatedAt := some now2, lastSyncedAt := some now2 }
      else mp) := rfl
  have hY1mp : Y1.moduleProgress = X3.moduleProgress := rfl
  have hmpz : D2.moduleProgress.map zmp = D1.moduleProgress.map zmp := by
    have hd2 : D2.moduleProgress = Y3.moduleProgress := rfl
    have hd1 : D1.moduleProgress = X3.moduleProgress := rfl
    rw [hd2, hd1, hY3mp, hauto, hY2mp, hY1mp, hX3mp]
    rw [hcnt, htot, hX2mp]
    by_cases hb : checkModuleAutoCompletion X2 me.2 me.1 = true
    · rw [if_pos hb, if_pos hb]
      simp only [List.map_map]
      apply List.map_congr_left
      intro x _
      by_cases hcnd : (x.enrollmentId == me.2 && x.moduleId == me.1) = true
      · simp [Function.comp, hcnd, zmp]
      · simp [Function.comp, hcnd, zmp]
    · rw [if_neg hb, if_neg hb]
      simp only [List.map_map]
      apply List.map_congr_left
      intro x _
      by_cases hcnd : (x.enrollmentId == me.2 && x.moduleId == me.1) = true
      · simp [Function.comp, hcnd, zmp]
      · simp [Function.comp, hcnd, zmp]
  constructor
  · have hD2u : D2.users = D1.users := mccW3_users now2 me.2 me.1 Y2
    have hD2m : D2.modules = D1.modules := mccW3_modules now2 me.2 me.1 Y2
    have hD2cb : D2.contentBlocks = D1.contentBlocks := mccW3_contentBlocks now2 me.2 me.1 Y2
    have hD2q : D2.quizzes = D1.quizzes := mccW3_quizzes now2 me.2 me.1 Y2
    have hD2qa : D2.quizAttempts = D1.quizAttempts := mccW3_quizAttempts now2 me.2 me.1 Y2
    have hD2os : D2.offlineSessions = D1.offlineSessions :=
      mccW3_offlineSessions now2 me.2 me.1 Y2
    have hD2sq : D2.syncQueue = D1.syncQueue := mccW3_syncQueue now2 me.2 me.1 Y2
    have hD2nid : D2.nextSyncId = D1.nextSyncId := mccW3_nextSyncId now2 me.2 me.1 Y2
    unfold eraseTimestamps
    simp only [DB.mk.injEq]
    exact ⟨hD2u, henz, hD2m, hD2cb, hD2q, hD2qa, hcpz, hmpz, hD2os, hD2sq, hD2nid⟩
  · intro hnd
    have hn1 : cpNodup D1.contentProgress := by
      rw [hD1cp]
      exact mccW1_nodup now1 me.2 cid db hnd
    have hd : D2.contentProgress = Y1.contentProgress :=
      mccW3_contentProgress now2 me.2 me.1 Y2
    rw [hd]
    exact mccW1_nodup now2 me.2 cid D1 hn1

/-- C7 witness: completing block `b1` of `dbCascade` at t=5 and again at t=9. -/
theorem C7_witness :
    eraseTimestamps ((markContentAsCompleted 9 "b1"
        ((markContentAsCompleted 5 "b1" dbCascade).getD dbCascade)).getD dbCascade) =
      eraseTimestamps ((markContentAsCompleted 5 "b1" dbCascade).getD dbCascade) ∧
    (cpNodup dbCascade.contentProgress →
      cpNodup ((markContentAsCompleted 9 "b1"
        ((markContentAsCompleted 5 "b1" dbCascade).getD dbCascade)).getD dbCascade).contentProgress) :=
  C7_mark_completed_idempotent dbCascade 5 9 "b1"
    ((markContentAsCompleted 5 "b1" dbCascade).getD dbCascade)
    ((markContentAsCompleted 9 "b1"
      ((markContentAsCompleted 5 "b1" dbCascade).getD dbCascade)).getD dbCascade)
    (by decide) (by decide)
